import Mathlib

/-!
Verification of the news_agent repository: a shallow embedding of the
conversation pipeline (src/services/conversation.py), the background
ingestion pipeline (src/tasks/news_tasks.py), the ChromaDB persistence
layer (src/database/client.py), and the RSS fetcher
(src/services/news_fetcher.py), together with theorems settling the
frozen claims about them.

Python strings are modelled by Lean `String`; Python `str[:n]` slicing
by `strTake`; Python dictionaries with possibly-absent keys by
structures with `Option` fields; Python `a or b` truthiness on strings
by `pyOrOpt`; Python exceptions by `Except`/`Option`.  Floating-point
similarity scores are modelled by exact rationals `Rat`: the claims in
question are about which comparisons are performed, not about rounding.
External services (the LLM endpoints, the sentence-transformer encoder
and ChromaDB's vector query) are single third-party calls; they enter
the model as explicit function parameters, so every theorem quantifies
over their behaviour.
-/

/-- Python `s[:n]` on a string. -/
def strTake (s : String) (n : Nat) : String := ⟨s.data.take n⟩

/-- Python `a or b` where `a` is an optional string: `None` and the empty
string are falsy. -/
def pyOrOpt (a : Option String) (b : String) : String :=
  match a with
  | some s => if s = "" then b else s
  | none => b

/-- Python truthiness of an optional string argument. -/
def optStrTruthy (o : Option String) : Bool :=
  match o with
  | some s => s ≠ ""
  | none => false

/-- Python truthiness of an optional list argument. -/
def optListTruthy (o : Option (List Rat)) : Bool :=
  match o with
  | some l => !l.isEmpty
  | none => false

/-- Drop the error of an `Except`, keeping the success value. -/
def exceptToOption {E A : Type} : Except E A → Option A
  | .ok a => some a
  | .error _ => none

/-- Python `enumerate(l, i)`. -/
def numberFrom {α : Type} (i : Nat) : List α → List (Nat × α)
  | [] => []
  | a :: rest => (i, a) :: numberFrom (i + 1) rest

/-- A ChromaDB metadata dictionary as written by `create_news_article`;
each key may be absent, hence `Option` fields.  (The `created_at` key is
carried along for fidelity; no claim depends on it.) -/
structure Metadata where
  title : Option String
  title_fr : Option String
  content : Option String
  content_fr : Option String
  url : Option String
  published_at : Option String
  created_at : Option String
deriving DecidableEq, Repr

/-- The dictionary returned by `collection.query`: nested lists, one inner
list per query (the code always issues exactly one query).  The
`embeddings` key is omitted: no verified claim mentions it. -/
structure QueryResults where
  ids : List (List String)
  metadatas : List (List Metadata)
  distances : List (List Rat)
deriving DecidableEq, Repr

/-- Return value of `search_articles_by_similarity_sync`: the Python
function returns either the empty list `[]` or the raw query-result
dictionary, so its type is this sum. -/
inductive SyncSearchResult
  | emptyList
  | raw (r : QueryResults)
deriving DecidableEq, Repr

/-- The two entry points of `self.news_collection.query` (by text or by
embedding); ChromaDB owns the vector search, so it is a parameter. -/
structure Collection where
  queryByText : String → Nat → QueryResults
  queryByEmbedding : List Rat → Nat → QueryResults

/-- `if not results["ids"]: return []` then `return results`
(src/database/client.py, sync search tail). -/
def syncWrap (r : QueryResults) : SyncSearchResult :=
  if r.ids = [] then .emptyList else .raw r

/-- `ChromaDBClient.search_articles_by_similarity_sync`: choose the query
branch by argument truthiness, then return the raw results; note the
`similarity_threshold` parameter is bound but never used by the body. -/
def search_articles_by_similarity_sync (c : Collection) (query_text : Option String)
    (query_embedding : Option (List Rat)) (limit : Nat)
    (similarity_threshold : Rat) : SyncSearchResult :=
  if optListTruthy query_embedding then
    syncWrap (c.queryByEmbedding (query_embedding.getD []) limit)
  else if optStrTruthy query_text then
    syncWrap (c.queryByText (query_text.getD "") limit)
  else .emptyList

/-- An article record as assembled by the async
`search_articles_by_similarity` (`publishedAt` kept as its ISO string). -/
structure Article where
  id : String
  title : String
  titleFr : String
  content : String
  contentFr : String
  url : String
  publishedAt : String
  similarity : Rat
deriving DecidableEq, Repr

/-- Python `metadata["key"]` on a stored-article metadata dictionary
(the stored keys are always present; absence would raise `KeyError`,
abstracted here by the empty-string default). -/
def getKey (o : Option String) : String := o.getD ""

/-- Loop body of the async search: walk `ids[0]` with the matching
metadata and distance, keep entries with `1 - distance ≥ threshold`. -/
def asyncBuild (r : QueryResults) (threshold : Rat) : List Article :=
  match r.ids with
  | [] => []
  | ids0 :: _ =>
    let md0 := r.metadatas.headD []
    let d0 := r.distances.headD []
    (ids0.zip (md0.zip d0)).filterMap (fun p =>
      let aid := p.1
      let m := p.2.1
      let dist := p.2.2
      let similarity := 1 - dist
      if threshold ≤ similarity then
        some { id := aid, title := getKey m.title, titleFr := getKey m.title_fr,
               content := getKey m.content, contentFr := getKey m.content_fr,
               url := getKey m.url, publishedAt := getKey m.published_at,
               similarity := similarity }
      else none)

/-- `ChromaDBClient.search_articles_by_similarity` (async): same query
dispatch, then the similarity filter `similarity >= similarity_threshold`. -/
def search_articles_by_similarity (c : Collection) (query_text : Option String)
    (query_embedding : Option (List Rat)) (limit : Nat)
    (similarity_threshold : Rat) : List Article :=
  if optListTruthy query_embedding then
    asyncBuild (c.queryByEmbedding (query_embedding.getD []) limit) similarity_threshold
  else if optStrTruthy query_text then
    asyncBuild (c.queryByText (query_text.getD "") limit) similarity_threshold
  else []

/-- `DailyNewsProcessor.get_articles_for_conversation_sync`: delegates to
the sync search with `similarity_threshold=0.3`. -/
def get_articles_for_conversation_sync (c : Collection) (query : String)
    (limit : Nat) : SyncSearchResult :=
  search_articles_by_similarity_sync c (some query) none limit (3 / 10)

/-- A chat message dictionary `{"role": ..., "content": ...}`. -/
structure Message where
  role : String
  content : String
deriving DecidableEq, Repr

/-- The `query_analysis` dictionary stored in the graph state
(`analysis.model_dump()` or the fallback dictionary); modelled with
optional fields since the routing code reads it with `.get`. -/
structure QueryAnalysisDict where
  keywords : Option String
  language : Option String
  intent : Option String
deriving DecidableEq, Repr

/-- A `sources_info` entry built by `generate_response_node`. -/
structure SourceInfo where
  id : Nat
  title_fr : String
  url : String
  published_at : String
deriving DecidableEq, Repr

/-- The LangGraph state dictionary.  `chat` seeds only `messages` and
`conversation_id`; the other keys are absent until a node writes them,
hence `Option`. -/
structure ConvState where
  messages : List Message
  conversation_id : Option String
  query_analysis : Option QueryAnalysisDict
  language : Option String
  relevant_articles : Option SyncSearchResult
  sources_used : Option (List SourceInfo)
deriving Repr

/-- The structured-output Pydantic model `QueryAnalysis`. -/
structure QueryAnalysis where
  keywords : String
  language : String
  intent : String
deriving DecidableEq, Repr

/-- The external services behind the graph nodes: the structured-output
LLM call of `analyze_query_node` (`none` models the exception path that
triggers the fallback), the ChromaDB collection, and the response LLM
call of `generate_response_node` (given the built article context and
the current state, it produces the reply text). -/
structure Env where
  analyzeLLM : String → Option QueryAnalysis
  collection : Collection
  respondLLM : String → ConvState → String

/-- `state["messages"][-1]["content"]` (the callers always supply a
non-empty message list; the empty case defaults to `""`). -/
def lastContent (ms : List Message) : String :=
  (ms.getLast?.map Message.content).getD ""

/-- `analyze_query_node`: run the structured LLM analysis; on success
store its dump and language, on failure store the fallback dictionary. -/
def analyze_query_node (env : Env) (state : ConvState) : ConvState :=
  let user_message := lastContent state.messages
  match env.analyzeLLM user_message with
  | some a =>
    { state with
      query_analysis := some ⟨some a.keywords, some a.language, some a.intent⟩,
      language := some a.language }
  | none =>
    { state with
      query_analysis := some ⟨some user_message, some "french", some "news_discussion"⟩,
      language := some "french" }

/-- `retrieve_articles_node`: search with the analysis keywords (falling
back to the last message) and `limit=3`. -/
def retrieve_articles_node (env : Env) (state : ConvState) : ConvState :=
  let analysis := state.query_analysis.getD ⟨none, none, none⟩
  let keywords := analysis.keywords.getD (lastContent state.messages)
  { state with
    relevant_articles := some (get_articles_for_conversation_sync env.collection keywords 3) }

/-- `metadata.get('title_fr', metadata.get('title', ''))`. -/
def titleFrOf (m : Metadata) : String := m.title_fr.getD (m.title.getD "")

/-- `metadata.get('content_fr', '')`. -/
def contentFrOf (m : Metadata) : String := m.content_fr.getD ""

/-- `metadata.get('url', '')`. -/
def urlOf (m : Metadata) : String := m.url.getD ""

/-- `metadata.get('published_at', '')`. -/
def pubOf (m : Metadata) : String := m.published_at.getD ""

/-- The context lines appended for article number `i` in the loop of
`generate_response_node` (the two `if` lines only when truthy). -/
def sourceBlock (i : Nat) (m : Metadata) : String :=
  "[Source " ++ Nat.repr i ++ "] " ++
    (titleFrOf m ++ "\n" ++
     "URL: " ++ urlOf m ++ "\n" ++
     (if pubOf m ≠ "" then "Publié le: " ++ strTake (pubOf m) 10 ++ "\n" else "") ++
     (if contentFrOf m ≠ "" then "Contenu: " ++ strTake (contentFrOf m) 300 ++ "...\n\n" else ""))

/-- The `sources_info` entry appended for article number `i`. -/
def sourceEntry (i : Nat) (m : Metadata) : SourceInfo :=
  { id := i, title_fr := titleFrOf m, url := urlOf m, published_at := pubOf m }

/-- The fixed header of the article context. -/
def contextHeader : String :=
  "Actualités pertinentes (IMPORTANT: Ces articles sont vos seules sources d'information):\n\n"

/-- The context string and `sources_info` list built by the article loop
of `generate_response_node`: nothing when `articles` is falsy, the header
alone when the `metadatas` list is empty, otherwise one block and one
entry per metadata of `metadatas[0]`, numbered from 1. -/
def buildContextSources (articles : SyncSearchResult) : String × List SourceInfo :=
  match articles with
  | .emptyList => ("", [])
  | .raw r =>
    match r.metadatas with
    | [] => (contextHeader, [])
    | article_list :: _ =>
      (contextHeader ++
         String.join ((numberFrom 1 article_list).map (fun p => sourceBlock p.1 p.2)),
       (numberFrom 1 article_list).map (fun p => sourceEntry p.1 p.2))

/-- `generate_response_node`: build the context and source list from
`relevant_articles`, record `sources_used`, call the LLM with the built
context, and append the assistant message. -/
def generate_response_node (env : Env) (state : ConvState) : ConvState :=
  let articles := state.relevant_articles.getD .emptyList
  let cs := buildContextSources articles
  let state' := { state with sources_used := some cs.2 }
  let response := env.respondLLM cs.1 state'
  { state' with messages := state'.messages ++ [⟨"assistant", response⟩] }

/-- `should_retrieve_articles`: read the intent with default
`"news_discussion"`; route to `"retrieve_articles"` on that intent, else
clear `relevant_articles` and route to `"generate_response"`.  The
returned pair carries the (possibly mutated) state alongside the label. -/
def should_retrieve_articles (state : ConvState) : String × ConvState :=
  let analysis := state.query_analysis.getD ⟨none, none, none⟩
  let intent := analysis.intent.getD "news_discussion"
  if intent = "news_discussion" then ("retrieve_articles", state)
  else ("generate_response", { state with relevant_articles := some .emptyList })

/-- The three node names registered by `workflow.add_node`. -/
inductive NodeName
  | analyze_query
  | retrieve_articles
  | generate_response
deriving DecidableEq, Repr

/-- A compiled LangGraph as wired by `_build_graph`: named node
functions, an entry point, at most one conditional-edge router (with its
label-to-node mapping) per node, and static edges (`some none` = END). -/
structure GraphDef where
  nodes : List (NodeName × (ConvState → ConvState))
  entry : NodeName
  conditional : NodeName → Option ((ConvState → String × ConvState) × List (String × NodeName))
  edges : NodeName → Option (Option NodeName)

/-- Look up a node function by name. -/
def lookupNode : NodeName → List (NodeName × (ConvState → ConvState)) → Option (ConvState → ConvState)
  | _, [] => none
  | n, (m, f) :: rest => if n = m then some f else lookupNode n rest

/-- Look up a conditional-edge target by router label. -/
def lookupLabel : String → List (String × NodeName) → Option NodeName
  | _, [] => none
  | s, (t, n) :: rest => if s = t then some n else lookupLabel s rest

/-- Run the function registered for node `n` (identity if unregistered). -/
def runNode (g : GraphDef) (n : NodeName) (s : ConvState) : ConvState :=
  match lookupNode n g.nodes with
  | some f => f s
  | none => s

/-- After node `n` produced state `s`, decide the successor: consult the
conditional router if one is registered, else the static edge. -/
def stepNext (g : GraphDef) (n : NodeName) (s : ConvState) : ConvState × Option NodeName :=
  match g.conditional n with
  | some rm =>
    let ls := rm.1 s
    (ls.2, lookupLabel ls.1 rm.2)
  | none =>
    match g.edges n with
    | some nxt => (s, nxt)
    | none => (s, none)

/-- Execute the graph from node `n`, collecting the trace of executed
nodes; `fuel` bounds the number of steps. -/
def execFrom (g : GraphDef) : Nat → NodeName → ConvState → ConvState × List NodeName
  | 0, _, s => (s, [])
  | fuel + 1, n, s =>
    let s' := runNode g n s
    let nx := stepNext g n s'
    match nx.2 with
    | none => (nx.1, [n])
    | some m =>
      let r := execFrom g fuel m nx.1
      (r.1, n :: r.2)

/-- The conversation graph exactly as `_build_graph` wires it: three
nodes, entry `analyze_query`, the conditional edge from `analyze_query`
through `should_retrieve_articles` with its two-label mapping, the
static edge `retrieve_articles → generate_response`, and
`generate_response → END`. -/
def conversationGraph (env : Env) : GraphDef where
  nodes := [(.analyze_query, analyze_query_node env),
            (.retrieve_articles, retrieve_articles_node env),
            (.generate_response, generate_response_node env)]
  entry := .analyze_query
  conditional := fun n =>
    if n = .analyze_query then
      some (should_retrieve_articles,
            [("retrieve_articles", .retrieve_articles),
             ("generate_response", .generate_response)])
    else none
  edges := fun n =>
    match n with
    | .analyze_query => none
    | .retrieve_articles => some (some .generate_response)
    | .generate_response => some none

/-- `self.graph.invoke(state)` together with the trace of executed nodes
(a fuel of 4 exceeds the length of any path in the three-node graph). -/
def graphInvoke (env : Env) (s : ConvState) : ConvState × List NodeName :=
  execFrom (conversationGraph env) 4 (conversationGraph env).entry s

/-- A fetched article (`NewsArticle` Pydantic model of
src/services/news_fetcher.py); `published_at` is kept as a string, the
model never inspects the datetime. -/
structure NewsArticle where
  title : String
  content : String
  url : String
  published_at : String
deriving DecidableEq, Repr

/-- One record of the `news_articles` ChromaDB collection, as passed to
`self.news_collection.add` (document text, metadata, id, embedding). -/
structure StoredArticle where
  id : String
  document : String
  metadata : Metadata
  embedding : Option (List Rat)
deriving DecidableEq, Repr

/-- `ChromaDBClient.create_news_article`: assemble the document text and
the metadata dictionary (content fields truncated to 1000 characters)
and add the record.  The generated uuid and `datetime.now()` enter as
the `article_id` and `now` parameters. -/
def create_news_article (article_id title content url published_at : String)
    (title_fr content_fr : Option String) (embedding : Option (List Rat))
    (now : String) : StoredArticle :=
  let document_text := pyOrOpt title_fr title
  let document_text :=
    if optStrTruthy content_fr then document_text ++ " " ++ content_fr.getD ""
    else if content ≠ "" then document_text ++ " " ++ content
    else document_text
  { id := article_id
    document := document_text
    metadata :=
      { title := some title
        title_fr := some (pyOrOpt title_fr "")
        content := some (strTake content 1000)
        content_fr := some (strTake (pyOrOpt content_fr "") 1000)
        url := some url
        published_at := some published_at
        created_at := some now }
    embedding := embedding }

/-- `_process_single_article_async` of src/tasks/news_tasks.py: translate
title and content, embed `f"{title_fr} {content_fr}"`, then store.  The
translator and the sentence-transformer encoder are the function
parameters `tT`, `tC` and `embed`. -/
def process_single_article (tT tC : String → String) (embed : String → List Rat)
    (a : NewsArticle) (article_id now : String) : StoredArticle :=
  let title_fr := tT a.title
  let content_fr := tC a.content
  let combined_text := title_fr ++ " " ++ content_fr
  let embedding := embed combined_text
  create_news_article article_id a.title a.content a.url a.published_at
    (some title_fr) (some content_fr) (some embedding) now

/-- `ChromaDBClient.get_news_article_by_url`: first record whose metadata
`url` matches, if any. -/
def get_news_article_by_url (store : List StoredArticle) (url : String) :
    Option StoredArticle :=
  store.find? (fun a => a.metadata.url == some url)

/-- The loop of `_process_news_async` over the fetched articles: skip an
article whose URL already exists (counting it skipped), otherwise store
its processed record (counting it processed).  Returns the final store
and the `(processed_count, skipped_count)` pair; `freshId` supplies the
uuid for the `idx`-th fetched article. -/
def process_news (tT tC : String → String) (embed : String → List Rat)
    (freshId : Nat → String) (now : String) :
    List NewsArticle → Nat → List StoredArticle → List StoredArticle × Nat × Nat
  | [], _, store => (store, 0, 0)
  | a :: rest, idx, store =>
    if (get_news_article_by_url store a.url).isSome then
      let r := process_news tT tC embed freshId now rest (idx + 1) store
      (r.1, r.2.1, r.2.2 + 1)
    else
      let r := process_news tT tC embed freshId now rest (idx + 1)
        (store ++ [process_single_article tT tC embed a (freshId idx) now])
      (r.1, r.2.1 + 1, r.2.2)

/-- Outcome of a Celery task run: final success value or the exception
that propagates once retries are exhausted. -/
inductive TaskResult (E A : Type)
  | ok (a : A)
  | failed (e : E)
deriving DecidableEq, Repr

/-- Celery's retry semantics for a task body of the shape
`try: ... except Exception as exc: raise self.retry(exc=exc, countdown=...)`:
attempt the body at retry count `r`; on success stop; on failure, if
`r < maxRetries` schedule a retry after `countdown base r` seconds and
run again at `r + 1`, otherwise let the exception propagate.  Returns
the outcome and the list of scheduled countdowns; `fuel` bounds the
recursion (callers pass `maxRetries + 1`, enough for every attempt). -/
def celeryRunFrom {E A : Type} (body : Nat → Except E A) (countdown : Nat → Nat → Nat)
    (base maxRetries : Nat) : Nat → Nat → TaskResult E A × List Nat
  | 0, r =>
    match body r with
    | .ok a => (.ok a, [])
    | .error e => (.failed e, [])
  | fuel + 1, r =>
    match body r with
    | .ok a => (.ok a, [])
    | .error e =>
      if r < maxRetries then
        let rec_ := celeryRunFrom body countdown base maxRetries fuel (r + 1)
        (rec_.1, countdown base r :: rec_.2)
      else (.failed e, [])

/-- The exponential-backoff countdown expression
`base * (2 ** self.request.retries)` shared by the retrying tasks. -/
def expBackoff (base retries : Nat) : Nat := base * 2 ^ retries

/-- Run a Celery task from a fresh request (`retries = 0`). -/
def celeryRun {E A : Type} (body : Nat → Except E A) (base maxRetries : Nat) :
    TaskResult E A × List Nat :=
  celeryRunFrom body expBackoff base maxRetries (maxRetries + 1) 0

/-- `task_max_retries=3` from `celery_app.conf` (src/celery_app.py). -/
def task_max_retries : Nat := 3

/-- The `fetch_and_process_news` task wrapper: retry with countdown
`60 * (2 ** self.request.retries)`. -/
def fetch_and_process_news_run {E A : Type} (body : Nat → Except E A) :
    TaskResult E A × List Nat :=
  celeryRun body 60 task_max_retries

/-- The `translate_article` task wrapper: countdown base 30. -/
def translate_article_run {E A : Type} (body : Nat → Except E A) :
    TaskResult E A × List Nat :=
  celeryRun body 30 task_max_retries

/-- The `create_embeddings` task wrapper: countdown base 15. -/
def create_embeddings_run {E A : Type} (body : Nat → Except E A) :
    TaskResult E A × List Nat :=
  celeryRun body 15 task_max_retries

/-- One document of the `conversations` ChromaDB collection: either a
conversation-metadata document (no `conversation_id`/`role` keys) or a
message document (both keys present). -/
structure ConvoDoc where
  id : String
  document : String
  conversation_id : Option String
  role : Option String
  created_at : String
deriving DecidableEq, Repr

/-- A message record as returned by `get_conversation_with_messages`. -/
structure StoredMessage where
  id : String
  role : String
  content : String
  created_at : String
deriving DecidableEq, Repr

/-- `ChromaDBClient.get_conversation_with_messages`: `none` when no
document has the conversation's id, else the message documents of the
conversation sorted by creation time. -/
def get_conversation_with_messages (store : List ConvoDoc) (cid : String) :
    Option (List StoredMessage) :=
  match store.find? (fun d => d.id == cid) with
  | none => none
  | some _ =>
    some (((store.filter (fun d => d.conversation_id == some cid && d.role.isSome)).map
      (fun d => ({ id := d.id, role := d.role.getD "", content := d.document,
                   created_at := d.created_at } : StoredMessage))).mergeSort
      (fun m1 m2 => m1.created_at ≤ m2.created_at))

/-- `ChromaDBClient.create_conversation`: append the conversation
document (its metadata has no `conversation_id`/`role` keys). -/
def create_conversation (store : List ConvoDoc) (cid now : String) : List ConvoDoc :=
  store ++ [{ id := cid, document := "Conversation " ++ cid,
              conversation_id := none, role := none, created_at := now }]

/-- `ChromaDBClient.add_message_to_conversation`: append a message
document with upper-cased role. -/
def add_message_to_conversation (store : List ConvoDoc) (mid cid role content now : String) :
    List ConvoDoc :=
  store ++ [{ id := mid, document := content, conversation_id := some cid,
              role := some role.toUpper, created_at := now }]

/-- The dictionary returned by `FrenchNewsConversationAgent.chat`. -/
structure ChatResponse where
  response : String
  conversation_id : String
  relevant_articles : SyncSearchResult
  sources_used : List SourceInfo
deriving Repr

/-- Tail of `chat` once the conversation id and message list are settled:
run the graph (`graphI` stands for `self.graph.invoke`, which may raise),
and only on success persist the user and assistant messages and build
the response dictionary.  On a raise the store is returned untouched. -/
def chatRunAndSave (graphI : ConvState → Except String ConvState)
    (freshId : Nat → String) (now : String) (store : List ConvoDoc)
    (cid message : String) (messages : List Message) :
    Except String ChatResponse × List ConvoDoc :=
  match graphI { messages := messages, conversation_id := some cid,
                 query_analysis := none, language := none,
                 relevant_articles := none, sources_used := none } with
  | .error e => (.error e, store)
  | .ok result =>
    let assistant := lastContent result.messages
    let store₁ := add_message_to_conversation store (freshId 1) cid "USER" message now
    let store₂ := add_message_to_conversation store₁ (freshId 2) cid "ASSISTANT" assistant now
    (.ok { response := assistant, conversation_id := cid,
           relevant_articles := result.relevant_articles.getD .emptyList,
           sources_used := result.sources_used.getD [] }, store₂)

/-- `FrenchNewsConversationAgent.chat`: with a conversation id, load the
conversation (raising `ValueError` when absent); without one, create a
fresh conversation; append the user message, run the graph, and persist
the exchange.  `freshId 0` is the uuid of a newly created conversation,
`freshId 1`/`freshId 2` those of the stored messages. -/
def chat (graphI : ConvState → Except String ConvState) (freshId : Nat → String)
    (now : String) (store : List ConvoDoc) (message : String)
    (conversation_id : Option String) :
    Except String ChatResponse × List ConvoDoc :=
  match conversation_id with
  | some cid =>
    match get_conversation_with_messages store cid with
    | none => (.error ("Conversation " ++ cid ++ " not found"), store)
    | some msgs =>
      let messages := msgs.map (fun m => ({ role := m.role.toLower, content := m.content } : Message))
        ++ [{ role := "user", content := message }]
      chatRunAndSave graphI freshId now store cid message messages
  | none =>
    let cid := freshId 0
    let store₁ := create_conversation store cid now
    chatRunAndSave graphI freshId now store₁ cid message [{ role := "user", content := message }]

/-- An RSS feed item as parsed by `fetch_rss_feed`. -/
structure RssItem where
  title : String
  link : String
  pub_date : String
  description : String
deriving DecidableEq, Repr

/-- `BBCNewsFetcher.fetch_latest_news`: process the first `limit` feed
items (`rss_items[:limit]`); `asyncio.gather(..., return_exceptions=True)`
turns per-item exceptions into values, and only results that are
`NewsArticle` instances are kept.  `process` stands for
`self._process_article`. -/
def fetch_latest_news (process : RssItem → Except String NewsArticle)
    (rss_items : List RssItem) (limit : Nat) : List NewsArticle :=
  ((rss_items.take limit).map process).filterMap exceptToOption

/-- A one-article collection used to instantiate the theorems below at a
concrete input: a single stored article at distance 0 from every query. -/
def sampleMetadata : Metadata :=
  { title := some "T", title_fr := some "TF", content := some "C",
    content_fr := some "CF", url := some "u",
    published_at := some "2024-01-01", created_at := some "now" }

/-- A concrete `Collection` whose text query returns the one sample
article. -/
def sampleCollection : Collection :=
  { queryByText := fun _ _ => ⟨[["id1"]], [[sampleMetadata]], [[0]]⟩,
    queryByEmbedding := fun _ _ => ⟨[], [], []⟩ }

/-- A concrete `Env`: the structured analysis call always fails (taking
the fallback), retrieval uses the sample collection, the reply LLM
returns a fixed string. -/
def sampleEnv : Env :=
  { analyzeLLM := fun _ => none,
    collection := sampleCollection,
    respondLLM := fun _ _ => "ok" }

theorem pyOrOpt_some_empty (x : String) : pyOrOpt (some x) "" = x := by
  by_cases h : x = "" <;> simp [pyOrOpt, h]

theorem numberFrom_length {α : Type} (i : Nat) (l : List α) :
    (numberFrom i l).length = l.length := by
  induction l generalizing i with
  | nil => rfl
  | cons a rest ih => simp [numberFrom, ih]

theorem numberFrom_getElem? {α : Type} (i j : Nat) (l : List α) :
    (numberFrom i l)[j]? = l[j]?.map (fun a => (i + j, a)) := by
  induction l generalizing i j with
  | nil => simp [numberFrom]
  | cons a rest ih =>
    cases j with
    | zero => simp [numberFrom]
    | succ j' =>
      simp only [numberFrom, List.getElem?_cons_succ, ih]
      cases rest[j']? with
      | none => rfl
      | some b => simp [Nat.add_assoc, Nat.add_comm 1 j']

theorem asyncBuild_similarity_ge (r : QueryResults) (t : Rat) :
    ∀ a ∈ asyncBuild r t, t ≤ a.similarity := by
  intro a ha
  unfold asyncBuild at ha
  split at ha
  · simp at ha
  · rcases List.mem_filterMap.mp ha with ⟨p, _, he⟩
    dsimp only at he
    by_cases hc : t ≤ 1 - p.2.2
    · rw [if_pos hc] at he
      cases he
      exact hc
    · rw [if_neg hc] at he
      cases he

/-- C2: `should_retrieve_articles` is a two-way conditional keyed on the
analysed intent, with `"news_discussion"` as the default for an absent
analysis or intent field. -/
theorem should_retrieve_two_way (s : ConvState) :
    ((((s.query_analysis.getD ⟨none, none, none⟩).intent.getD "news_discussion")
        = "news_discussion" →
      (should_retrieve_articles s).1 = "retrieve_articles") ∧
     (s.query_analysis = none →
      (should_retrieve_articles s).1 = "retrieve_articles") ∧
     (∀ a : QueryAnalysisDict, s.query_analysis = some a → a.intent = none →
      (should_retrieve_articles s).1 = "retrieve_articles") ∧
     (((s.query_analysis.getD ⟨none, none, none⟩).intent.getD "news_discussion")
        ≠ "news_discussion" →
      (should_retrieve_articles s).1 = "generate_response") ∧
     ((should_retrieve_articles s).1 = "retrieve_articles" ∨
      (should_retrieve_articles s).1 = "generate_response")) := by
  by_cases h : (((s.query_analysis.getD ⟨none, none, none⟩).intent.getD "news_discussion")
      = "news_discussion")
  · refine ⟨fun _ => ?_, fun _ => ?_, fun a _ _ => ?_, fun hn => absurd h hn, Or.inl ?_⟩ <;>
      simp [should_retrieve_articles, h]
  · refine ⟨fun hy => absurd hy h, fun hq => ?_, fun a hq hi => ?_, fun _ => ?_, Or.inr ?_⟩
    · rw [hq] at h
      simp at h
    · rw [hq] at h
      simp [hi] at h
    · simp [should_retrieve_articles, h]
    · simp [should_retrieve_articles, h]

theorem should_retrieve_two_way_witness :
    (should_retrieve_articles
        ⟨[⟨"user", "salut"⟩], none, none, none, none, none⟩).1 = "retrieve_articles" :=
  (should_retrieve_two_way _).2.1 rfl

/-- C8: the synchronous similarity search ignores its
`similarity_threshold` parameter entirely (any two thresholds give
identical results), while the async search keeps only articles whose
similarity `1 - distance` is at least the threshold. -/
theorem sync_search_threshold_independent (c : Collection) (qt : String)
    (limit : Nat) (t1 t2 t : Rat) :
    search_articles_by_similarity_sync c (some qt) none limit t1
        = search_articles_by_similarity_sync c (some qt) none limit t2 ∧
    ∀ a ∈ search_articles_by_similarity c (some qt) none limit t,
      t ≤ a.similarity := by
  refine ⟨rfl, ?_⟩
  intro a ha
  unfold search_articles_by_similarity at ha
  simp only [optListTruthy, Bool.false_eq_true, if_false] at ha
  by_cases hq : qt = ""
  · simp [optStrTruthy, hq] at ha
  · simp only [optStrTruthy, hq] at ha
    rw [if_pos (by simp [hq])] at ha
    exact asyncBuild_similarity_ge _ t a ha

theorem sync_search_threshold_independent_witness :
    (⟨"id1", "T", "TF", "C", "CF", "u", "2024-01-01", 1 - 0⟩ : Article)
        ∈ search_articles_by_similarity sampleCollection (some "q") none 3 (3 / 10) ∧
    (3 / 10 : Rat) ≤ (1 - 0 : Rat) := by
  have hm : (⟨"id1", "T", "TF", "C", "CF", "u", "2024-01-01", 1 - 0⟩ : Article)
      ∈ search_articles_by_similarity sampleCollection (some "q") none 3 (3 / 10) := by
    simp [search_articles_by_similarity, asyncBuild, sampleCollection, sampleMetadata,
      optStrTruthy, optListTruthy, getKey]
    norm_num
  exact ⟨hm, (sync_search_threshold_independent sampleCollection "q" 3 0 1 (3 / 10)).2 _ hm⟩

/-- C10: `fetch_latest_news` yields at most `limit` articles, each the
successful processing of one of the first `limit` feed items, every such
success is included, and failing items are dropped rather than raising. -/
theorem fetch_latest_news_bounded (process : RssItem → Except String NewsArticle)
    (items : List RssItem) (limit : Nat) :
    (fetch_latest_news process items limit).length ≤ limit ∧
    (∀ a ∈ fetch_latest_news process items limit,
      ∃ it ∈ items.take limit, process it = .ok a) ∧
    (∀ it ∈ items.take limit, ∀ a, process it = .ok a →
      a ∈ fetch_latest_news process items limit) := by
  refine ⟨?_, ?_, ?_⟩
  · calc (fetch_latest_news process items limit).length
        ≤ ((items.take limit).map process).length := List.length_filterMap_le _ _
      _ = (items.take limit).length := List.length_map _ _
      _ ≤ limit := items.length_take_le limit
  · intro a ha
    rcases List.mem_filterMap.mp ha with ⟨x, hx, hxa⟩
    rcases List.mem_map.mp hx with ⟨it, hit, rfl⟩
    refine ⟨it, hit, ?_⟩
    cases hp : process it with
    | ok b => rw [hp] at hxa; cases hxa; rfl
    | error e => rw [hp] at hxa; cases hxa
  · intro it hit a hp
    exact List.mem_filterMap.mpr ⟨process it, List.mem_map_of_mem process hit, by rw [hp]; rfl⟩

theorem fetch_latest_news_bounded_witness :
    (⟨"a1", "c", "l", "p"⟩ : NewsArticle) ∈
      fetch_latest_news (fun it => .ok ⟨it.title, "c", it.link, "p"⟩)
        [⟨"a1", "l", "pd", "d"⟩] 1 :=
  (fetch_latest_news_bounded _ _ _).2.2 ⟨"a1", "l", "pd", "d"⟩ (by decide) _ rfl

/-- C9: `chat` on an unknown conversation id raises
`ValueError("Conversation {id} not found")` before any store mutation,
and even on a known id nothing is persisted unless the graph invocation
returns successfully. -/
theorem chat_unknown_conversation_rollback (graphI : ConvState → Except String ConvState)
    (freshId : Nat → String) (now : String) (store : List ConvoDoc)
    (message cid : String) :
    (get_conversation_with_messages store cid = none →
      chat graphI freshId now store message (some cid)
        = (.error ("Conversation " ++ cid ++ " not found"), store)) ∧
    (∀ msgs e, get_conversation_with_messages store cid = some msgs →
      graphI { messages := msgs.map (fun m => ⟨m.role.toLower, m.content⟩)
                  ++ [⟨"user", message⟩],
               conversation_id := some cid, query_analysis := none, language := none,
               relevant_articles := none, sources_used := none } = .error e →
      chat graphI freshId now store message (some cid) = (.error e, store)) := by
  constructor
  · intro h
    simp [chat, h]
  · intro msgs e h hg
    simp [chat, h, chatRunAndSave, hg]

theorem chat_unknown_conversation_rollback_witness :
    chat (fun s => .ok s) (fun _ => "x") "t0" [] "hello" (some "c1")
      = (.error ("Conversation " ++ "c1" ++ " not found"), []) :=
  (chat_unknown_conversation_rollback _ _ _ _ _ _).1 rfl

theorem celeryRunFrom_delay_exponential {E A : Type} (body : Nat → Except E A)
    (base maxR : Nat) :
    ∀ (fuel r n d : Nat),
      ((celeryRunFrom body expBackoff base maxR fuel r).2)[n]? = some d →
      d = base * 2 ^ (r + n) := by
  intro fuel
  induction fuel with
  | zero =>
    intro r n d h
    unfold celeryRunFrom at h
    split at h <;> simp at h
  | succ fuel ih =>
    intro r n d h
    unfold celeryRunFrom at h
    split at h
    · simp at h
    · by_cases hr : r < maxR
      · rw [if_pos hr] at h
        dsimp only at h
        cases n with
        | zero =>
          simp [expBackoff] at h
          simpa using h.symm
        | succ n' =>
          simp only [List.getElem?_cons_succ] at h
          rw [ih (r + 1) n' d h]
          congr 2
          omega
      · rw [if_neg hr] at h
        simp at h

theorem celeryRunFrom_length_le {E A : Type} (body : Nat → Except E A)
    (base maxR : Nat) :
    ∀ (fuel r : Nat),
      ((celeryRunFrom body expBackoff base maxR fuel r).2).length ≤ maxR - r := by
  intro fuel
  induction fuel with
  | zero =>
    intro r
    unfold celeryRunFrom
    split <;> simp
  | succ fuel ih =>
    intro r
    unfold celeryRunFrom
    split
    · simp
    · by_cases hr : r < maxR
      · rw [if_pos hr]
        dsimp only
        have := ih (r + 1)
        simp only [List.length_cons]
        omega
      · rw [if_neg hr]
        simp

theorem celeryRunFrom_failed {E A : Type} (body : Nat → Except E A)
    (base maxR : Nat) :
    ∀ (fuel r : Nat) (e : E),
      maxR + 1 ≤ fuel + r → r ≤ maxR →
      (celeryRunFrom body expBackoff base maxR fuel r).1 = .failed e →
      body maxR = .error e ∧
      ((celeryRunFrom body expBackoff base maxR fuel r).2).length = maxR - r := by
  intro fuel
  induction fuel with
  | zero =>
    intro r e hfr hrm _
    omega
  | succ fuel ih =>
    intro r e hfr hrm hfail
    rcases Nat.lt_or_ge r maxR with hr | hr
    · have h1 : maxR + 1 ≤ fuel + (r + 1) := by omega
      have h2 : r + 1 ≤ maxR := by omega
      unfold celeryRunFrom at hfail ⊢
      cases hb : body r with
      | ok a => rw [hb] at hfail; cases hfail
      | error e' =>
        rw [hb] at hfail
        dsimp only at hfail ⊢
        rw [if_pos hr] at hfail ⊢
        dsimp only at hfail ⊢
        rcases ih (r + 1) e h1 h2 hfail with ⟨hbody, hlen⟩
        refine ⟨hbody, ?_⟩
        simp only [List.length_cons, hlen]
        omega
    · have hrm' : r = maxR := by omega
      unfold celeryRunFrom at hfail ⊢
      cases hb : body r with
      | ok a => rw [hb] at hfail; cases hfail
      | error e' =>
        rw [hb] at hfail
        dsimp only at hfail ⊢
        rw [if_neg (by omega)] at hfail ⊢
        cases hfail
        subst hrm'
        exact ⟨hb, by simp⟩

/-- C6: each retrying background task schedules its `n`-th retry with the
exponential countdown of its wrapper: `60 * 2 ^ n` seconds for
`fetch_and_process_news`, `30 * 2 ^ n` for `translate_article`, and
`15 * 2 ^ n` for `create_embeddings`. -/
theorem retry_countdown_exponential (E A : Type) (body : Nat → Except E A)
    (n d : Nat) :
    (((fetch_and_process_news_run body).2)[n]? = some d → d = 60 * 2 ^ n) ∧
    (((translate_article_run body).2)[n]? = some d → d = 30 * 2 ^ n) ∧
    (((create_embeddings_run body).2)[n]? = some d → d = 15 * 2 ^ n) := by
  refine ⟨fun h => ?_, fun h => ?_, fun h => ?_⟩ <;>
    simpa using celeryRunFrom_delay_exponential body _ task_max_retries _ 0 n d h

theorem retry_countdown_exponential_witness :
    (((fetch_and_process_news_run (fun _ => (.error 0 : Except Nat Nat))).2)[0]? = some 60) ∧
    (60 = 60 * 2 ^ 0) :=
  ⟨rfl, (retry_countdown_exponential Nat Nat (fun _ => (.error 0 : Except Nat Nat)) 0 60).1 rfl⟩

/-- C7: with `task_max_retries = 3` from the Celery configuration, a
task is retried at most three times, and when the run still ends in
failure exactly three retries have happened and the exception raised by
the final attempt propagates. -/
theorem retry_limit_three_then_fail (E A : Type) (body : Nat → Except E A)
    (base : Nat) :
    ((celeryRun body base task_max_retries).2).length ≤ task_max_retries ∧
    ∀ e, (celeryRun body base task_max_retries).1 = .failed e →
      body task_max_retries = .error e ∧
      ((celeryRun body base task_max_retries).2).length = task_max_retries := by
  constructor
  · simpa using celeryRunFrom_length_le body base task_max_retries (task_max_retries + 1) 0
  · intro e hfail
    have := celeryRunFrom_failed body base task_max_retries (task_max_retries + 1) 0 e
      (by omega) (by omega) hfail
    simpa using this

theorem retry_limit_three_then_fail_witness :
    (celeryRun (fun _ => (.error 7 : Except Nat Nat)) 60 task_max_retries).1 = .failed 7 ∧
    ((fun _ => (.error 7 : Except Nat Nat)) task_max_retries = .error 7 ∧
      ((celeryRun (fun _ => (.error 7 : Except Nat Nat)) 60 task_max_retries).2).length
        = task_max_retries) :=
  ⟨rfl, (retry_limit_three_then_fail Nat Nat (fun _ => (.error 7 : Except Nat Nat)) 60).2 7 rfl⟩

/-- C4 (amended): the embedding handed to the store is exactly the
embedding of `f"{title_fr} {content_fr}"` computed from the translations
of the fetched title and content, and the stored metadata carries the
original English title, the French title, and the English and French
contents each truncated to their first 1000 characters. -/
theorem stored_article_embedding_and_fields (tT tC : String → String)
    (embed : String → List Rat) (a : NewsArticle) (aid now : String) :
    (process_single_article tT tC embed a aid now).embedding
        = some (embed (tT a.title ++ " " ++ tC a.content)) ∧
    (process_single_article tT tC embed a aid now).metadata.title = some a.title ∧
    (process_single_article tT tC embed a aid now).metadata.title_fr = some (tT a.title) ∧
    (process_single_article tT tC embed a aid now).metadata.content
        = some (strTake a.content 1000) ∧
    (process_single_article tT tC embed a aid now).metadata.content_fr
        = some (strTake (tC a.content) 1000) ∧
    (process_single_article tT tC embed a aid now).metadata.url = some a.url ∧
    (process_single_article tT tC embed a aid now).metadata.published_at
        = some a.published_at := by
  refine ⟨rfl, rfl, ?_, rfl, ?_, rfl, rfl⟩ <;>
    simp [process_single_article, create_news_article, pyOrOpt_some_empty]

/-- C4 counterexample: for an article whose content is 1001 characters
long, the metadata stored by the pipeline does not carry the original
English content — it is truncated to 1000 characters — so the claim
that the stored record carries the original English content is false. -/
theorem stored_content_truncated :
    (process_single_article (fun s => s) (fun s => s) (fun _ => ([] : List Rat))
        ⟨"t", ⟨List.replicate 1001 'a'⟩, "u", "2024-01-01T00:00:00"⟩
        "id0" "now0").metadata.content
      ≠ some (⟨List.replicate 1001 'a'⟩ : String) := by
  intro h
  simp only [process_single_article, create_news_article, strTake,
    Option.some.injEq] at h
  have hlen := congrArg (fun s : String => s.data.length) h
  simp only [List.length_take, List.length_replicate] at hlen
  omega

theorem process_news_append (tT tC : String → String) (embed : String → List Rat)
    (freshId : Nat → String) (now : String) (l₂ : List NewsArticle) :
    ∀ (l₁ : List NewsArticle) (idx : Nat) (store : List StoredArticle),
      (process_news tT tC embed freshId now (l₁ ++ l₂) idx store).1
        = (process_news tT tC embed freshId now l₂ (idx + l₁.length)
            (process_news tT tC embed freshId now l₁ idx store).1).1 := by
  intro l₁
  induction l₁ with
  | nil =>
    intro idx store
    simp [process_news]
  | cons a rest ih =>
    intro idx store
    by_cases hp : (get_news_article_by_url store a.url).isSome
    · simp only [List.cons_append, process_news, hp, if_true, List.length_cons,
        List.append_eq]
      rw [ih (idx + 1) store]
      rw [show idx + 1 + rest.length = idx + (rest.length + 1) from by omega]
    · simp only [List.cons_append, process_news, hp, if_false, List.length_cons,
        Bool.false_eq_true, List.append_eq]
      rw [ih (idx + 1) _]
      rw [show idx + 1 + rest.length = idx + (rest.length + 1) from by omega]

theorem process_news_mono (tT tC : String → String) (embed : String → List Rat)
    (freshId : Nat → String) (now : String) :
    ∀ (l : List NewsArticle) (idx : Nat) (store : List StoredArticle)
      (x : StoredArticle), x ∈ store →
      x ∈ (process_news tT tC embed freshId now l idx store).1 := by
  intro l
  induction l with
  | nil =>
    intro idx store x hx
    simpa [process_news] using hx
  | cons a rest ih =>
    intro idx store x hx
    by_cases hp : (get_news_article_by_url store a.url).isSome
    · simp only [process_news, hp, if_true]
      exact ih _ _ _ hx
    · simp only [process_news, hp, if_false, Bool.false_eq_true]
      exact ih _ _ _ (List.mem_append_left _ hx)

/-- C5 (amended): a fetched article is processed fetch → translate →
embed → store — the stored record is `process_single_article`, whose
translation reads the fetched title and content, whose embedding reads
the translation, and whose store call receives both — and it is stored
exactly when its URL is not already present in the store at the moment
it is processed; articles whose URL already exists are skipped, not
re-stored. -/
theorem pipeline_stores_new_articles (tT tC : String → String)
    (embed : String → List Rat) (freshId : Nat → String) (now : String)
    (pre : List NewsArticle) (a : NewsArticle) (post : List NewsArticle)
    (store : List StoredArticle) :
    get_news_article_by_url
        (process_news tT tC embed freshId now pre 0 store).1 a.url = none →
    process_single_article tT tC embed a (freshId pre.length) now
      ∈ (process_news tT tC embed freshId now (pre ++ a :: post) 0 store).1 := by
  intro habsent
  rw [process_news_append]
  simp only [Nat.zero_add]
  simp only [process_news, habsent, Option.isSome_none, if_false, Bool.false_eq_true]
  exact process_news_mono tT tC embed freshId now post _ _ _
    (List.mem_append_right _ (List.mem_singleton_self _))

theorem pipeline_stores_new_articles_witness :
    process_single_article (fun s => s) (fun s => s) (fun _ => ([] : List Rat))
        ⟨"T", "C", "u", "p"⟩ ((fun i => "n" ++ Nat.repr i) ([] : List NewsArticle).length) "now"
      ∈ (process_news (fun s => s) (fun s => s) (fun _ => ([] : List Rat))
          (fun i => "n" ++ Nat.repr i) "now"
          (([] : List NewsArticle) ++ ⟨"T", "C", "u", "p"⟩ :: []) 0 []).1 :=
  pipeline_stores_new_articles (fun s => s) (fun s => s) (fun _ => ([] : List Rat))
    (fun i => "n" ++ Nat.repr i) "now" [] ⟨"T", "C", "u", "p"⟩ [] [] rfl

/-- C5 counterexample: a fetched article whose URL is already present in
the store is skipped, so its processed record is NOT stored — refuting
"every fetched article is so stored" at this concrete input. -/
theorem ingestion_skips_existing_url :
    process_single_article (fun s => s) (fun s => s) (fun _ => ([] : List Rat))
        ⟨"T", "C", "u", "2024"⟩ "n0" "now"
      ∉ (process_news (fun s => s) (fun s => s) (fun _ => ([] : List Rat))
          (fun i => "n" ++ Nat.repr i) "now"
          [⟨"T", "C", "u", "2024"⟩] 0
          [⟨"old", "olddoc",
            ⟨some "Old", some "", some "", some "", some "u", some "p", some "c"⟩,
            none⟩]).1 := by
  decide

/-- C3: for a state whose `relevant_articles` hold `n` article metadata
entries, `generate_response_node` sets `sources_used` to exactly the `n`
entries in order, entry `j` carrying id `j + 1` and the `title_fr`,
`url` and `published_at` read from metadata `j`; the context handed to
the LLM prompt is the fixed header followed by one block per article,
the block of article `j` starting with the label `[Source j+1]`; with no
articles present, `sources_used` is set to the empty list. -/
theorem generate_response_sources_cited (env : Env) (s : ConvState) :
    (∀ (ids : List (List String)) (al : List Metadata)
       (rest : List (List Metadata)) (ds : List (List Rat)),
      s.relevant_articles = some (.raw ⟨ids, al :: rest, ds⟩) →
      ((generate_response_node env s).sources_used
          = some ((numberFrom 1 al).map (fun p => sourceEntry p.1 p.2)) ∧
       ((numberFrom 1 al).map (fun p => sourceEntry p.1 p.2)).length = al.length ∧
       (∀ (j : Nat) (m : Metadata), al[j]? = some m →
         ((numberFrom 1 al).map (fun p => sourceEntry p.1 p.2))[j]?
           = some { id := j + 1, title_fr := titleFrOf m, url := urlOf m,
                    published_at := pubOf m }) ∧
       (buildContextSources (.raw ⟨ids, al :: rest, ds⟩)).1
         = contextHeader ++
             String.join ((numberFrom 1 al).map (fun p => sourceBlock p.1 p.2)) ∧
       (∀ (j : Nat) (m : Metadata), al[j]? = some m →
         ∃ t, sourceBlock (j + 1) m
           = "[Source " ++ Nat.repr (j + 1) ++ "] " ++ t))) ∧
    ((s.relevant_articles = none ∨ s.relevant_articles = some .emptyList) →
      (generate_response_node env s).sources_used = some []) := by
  constructor
  · intro ids al rest ds hra
    refine ⟨?_, ?_, ?_, rfl, ?_⟩
    · simp [generate_response_node, hra, buildContextSources]
    · rw [List.length_map, numberFrom_length]
    · intro j m hm
      rw [List.getElem?_map, numberFrom_getElem?, hm]
      simp [sourceEntry, Nat.add_comm 1 j]
    · intro j m _
      exact ⟨_, rfl⟩
  · intro h
    rcases h with h | h <;> simp [generate_response_node, h, buildContextSources]

theorem generate_response_sources_cited_witness :
    ((generate_response_node sampleEnv
        ⟨[⟨"user", "salut"⟩], some "c", none, none,
         some (.raw ⟨[["id1"]], [[sampleMetadata]], [[0]]⟩), none⟩).sources_used
        = some ((numberFrom 1 [sampleMetadata]).map (fun p => sourceEntry p.1 p.2)) ∧
     ((numberFrom 1 [sampleMetadata]).map (fun p => sourceEntry p.1 p.2)).length
        = [sampleMetadata].length ∧
     (∀ (j : Nat) (m : Metadata), [sampleMetadata][j]? = some m →
       ((numberFrom 1 [sampleMetadata]).map (fun p => sourceEntry p.1 p.2))[j]?
         = some { id := j + 1, title_fr := titleFrOf m, url := urlOf m,
                  published_at := pubOf m }) ∧
     (buildContextSources (.raw ⟨[["id1"]], [[sampleMetadata]], [[0]]⟩)).1
       = contextHeader ++
           String.join ((numberFrom 1 [sampleMetadata]).map (fun p => sourceBlock p.1 p.2)) ∧
     (∀ (j : Nat) (m : Metadata), [sampleMetadata][j]? = some m →
       ∃ t, sourceBlock (j + 1) m
         = "[Source " ++ Nat.repr (j + 1) ++ "] " ++ t)) :=
  (generate_response_sources_cited sampleEnv
      ⟨[⟨"user", "salut"⟩], some "c", none, none,
       some (.raw ⟨[["id1"]], [[sampleMetadata]], [[0]]⟩), none⟩).1
    [["id1"]] [sampleMetadata] [] [[0]] rfl

/-- C1: the compiled conversation graph has exactly the three node
functions `analyze_query`, `retrieve_articles`, `generate_response`;
every invocation's execution trace starts with `analyze_query`, ends
with `generate_response`, is one of the two paths through the graph, and
passes through `retrieve_articles` exactly when the routing decision of
`should_retrieve_articles` on the analysed state selects it. -/
theorem conversation_graph_order (env : Env) (s : ConvState) :
    ((conversationGraph env).nodes.map Prod.fst
        = [.analyze_query, .retrieve_articles, .generate_response]) ∧
    ((graphInvoke env s).2.head? = some .analyze_query) ∧
    ((graphInvoke env s).2.getLast? = some .generate_response) ∧
    ((graphInvoke env s).2 = [.analyze_query, .retrieve_articles, .generate_response] ∨
      (graphInvoke env s).2 = [.analyze_query, .generate_response]) ∧
    (NodeName.retrieve_articles ∈ (graphInvoke env s).2 ↔
      (should_retrieve_articles (analyze_query_node env s)).1 = "retrieve_articles") := by
  by_cases h : ((analyze_query_node env s).query_analysis.getD
      ⟨none, none, none⟩).intent.getD "news_discussion" = "news_discussion"
  · have ht : (graphInvoke env s).2
        = [.analyze_query, .retrieve_articles, .generate_response] := by
      simp [graphInvoke, execFrom, runNode, stepNext, conversationGraph,
        lookupNode, lookupLabel, should_retrieve_articles, h]
    have hr : (should_retrieve_articles (analyze_query_node env s)).1
        = "retrieve_articles" := by
      simp [should_retrieve_articles, h]
    rw [ht, hr]
    refine ⟨rfl, rfl, rfl, Or.inl rfl, ?_⟩
    simp
  · have ht : (graphInvoke env s).2 = [.analyze_query, .generate_response] := by
      simp [graphInvoke, execFrom, runNode, stepNext, conversationGraph,
        lookupNode, lookupLabel, should_retrieve_articles, h]
    have hr : (should_retrieve_articles (analyze_query_node env s)).1
        = "generate_response" := by
      simp [should_retrieve_articles, h]
    rw [ht, hr]
    refine ⟨rfl, rfl, rfl, Or.inr rfl, ?_⟩
    simp
